import Mathlib

/-!
Verification of `gifcrop.py` (SVG2GIF repository).

Shallow embedding of `src/gifcrop.py`, a pipeline that crops every frame of
an animated GIF while preserving duration and loop metadata.

Modelling choices:
* A pixel is modelled as an abstract colour value (`Nat`); colour-mode
  conversion (`convert('RGBA')`) changes the frame's mode tag but preserves
  the colour carried by each pixel severally (palette lookup and channel
  expansion do not change the displayed colour).
* Crop coordinates are Python integers, modelled as `Int`.
* PIL's `Image.crop` is modelled per its documented semantics: the result has
  size `(right-left) x (bottom-top)`, pixel `(x, y)` of the result is pixel
  `(left+x, top+y)` of the source when that position lies inside the source,
  and the fill value `0` otherwise (PIL pads regions outside the source; it
  neither clamps nor raises).
* The `while True: ... img.seek(...)` loop terminated by `EOFError` is the
  decoder's finite ordered frame sequence; it becomes a `List.map` over the
  decoded frames.
* Exceptions become `Except` values; `main`'s orchestration is modelled as a
  function of an environment (does the input path exist, what the decoder
  returns, does the encoder's save succeed) returning the exit code, the
  written output if any, the executed stages and the diagnostic messages.
-/

namespace Gifcrop

/-- A pixel, identified with its abstract colour value. `0` is PIL's fill
value for regions of a crop that lie outside the source image. -/
abbrev Pixel := Nat

/-- PIL colour modes relevant to the program: `RGBA` (full alpha), `P`
(palette-indexed), and the remaining modes a decoded frame may carry,
which `crop_gif` converts to `RGBA`. -/
inductive ColorMode where
  | RGBA
  | P
  | RGB
  | L
  | LA
deriving DecidableEq, Repr

/-- A raster frame: dimensions, colour mode and a pixel grid. Positions
outside `width x height` are irrelevant (all access is guarded). -/
structure Frame where
  width : Nat
  height : Nat
  mode : ColorMode
  pix : Nat → Nat → Pixel

/-- Pixel access at signed coordinates, with PIL's fill value `0` outside
the frame's bounds. -/
def Frame.getPix (f : Frame) (x y : Int) : Pixel :=
  if 0 ≤ x ∧ x < (f.width : Int) ∧ 0 ≤ y ∧ y < (f.height : Int) then
    f.pix x.toNat y.toNat
  else 0

/-- PIL `Image.crop((left, top, right, bottom))`: a new raster of size
`(right-left) x (bottom-top)` whose pixel `(x, y)` is the source pixel at
`(left+x, top+y)`, with fill value `0` where that position lies outside the
source. The colour mode is unchanged. -/
def pilCrop (f : Frame) (left top right bottom : Int) : Frame :=
  { width := (right - left).toNat
    height := (bottom - top).toNat
    mode := f.mode
    pix := fun x y => f.getPix (left + (x : Int)) (top + (y : Int)) }

/-- PIL `Image.convert('RGBA')`: the mode becomes `RGBA`; the colour carried
by each pixel is preserved (palette lookup / channel expansion). -/
def convertRGBA (f : Frame) : Frame :=
  { f with mode := ColorMode.RGBA }

/-- The body of the per-frame loop in `crop_gif` (lines 32-38): crop the
frame, then convert to `RGBA` unless the cropped raster's mode is already
`RGBA` or `P`. -/
def processFrame (left top right bottom : Int) (f : Frame) : Frame :=
  let cropped := pilCrop f left top right bottom
  if cropped.mode = ColorMode.RGBA ∨ cropped.mode = ColorMode.P then cropped
  else convertRGBA cropped

/-- A decoded animated image: the ordered frame sequence produced by the
`seek`/`EOFError` loop, and the `info` metadata: `duration` and `loop`,
each possibly absent. -/
structure AnimImage where
  frames : List Frame
  duration : Option Nat
  loop : Option Nat

/-- The animated file written by `frames[0].save(...)`: the ordered cropped
frames, the single scalar `duration` applied uniformly to all frames, and
the `loop` count. -/
structure OutputGif where
  frames : List Frame
  duration : Nat
  loop : Nat

/-- The error taxonomy of the program. `invalidDimensions` and
`emptySequence` are the `ValueError`s raised by the source; `fileNotFound`
is the `FileNotFoundError` of `main`; `codecError` stands for any other
decode or encode failure of the external library. -/
inductive GifError where
  | invalidDimensions (msg : String)
  | emptySequence
  | fileNotFound
  | codecError
deriving DecidableEq, Repr

/-- `crop_gif` (lines 17-59), applied to the decoded image: read `duration`
(default 100) and `loop` (default 0) from the metadata, crop and
mode-convert every frame in order, then either produce the output file or
raise `ValueError("No frames were extracted from the GIF")` when the frame
list is empty. -/
def crop_gif (img : AnimImage) (left top right bottom : Int) :
    Except GifError OutputGif :=
  let duration := img.duration.getD 100
  let loop := img.loop.getD 0
  let frames := img.frames.map (processFrame left top right bottom)
  if frames.isEmpty then
    Except.error GifError.emptySequence
  else
    Except.ok { frames := frames, duration := duration, loop := loop }

/-- `validate_dimensions` (lines 65-72): raise `ValueError` when
`left >= right`, when `top >= bottom`, or when any coordinate is negative;
return `()` otherwise. It takes no frame argument, so it cannot compare the
rectangle against frame bounds, and it is a pure function. -/
def validate_dimensions (left top right bottom : Int) :
    Except GifError Unit :=
  if left ≥ right then
    Except.error (GifError.invalidDimensions
      "Left coordinate must be less than right coordinate")
  else if top ≥ bottom then
    Except.error (GifError.invalidDimensions
      "Top coordinate must be less than bottom coordinate")
  else if left < 0 ∨ top < 0 ∨ right < 0 ∨ bottom < 0 then
    Except.error (GifError.invalidDimensions "Coordinates cannot be negative")
  else
    Except.ok ()

/-- The pipeline stages of `main` (lines 85-98), in execution order:
input-path existence check, dimension validation, decode (`Image.open`),
the per-frame crop loop, and the encoder's `save`. -/
inductive Stage where
  | checkPath
  | validateDims
  | decodeStage
  | cropStage
  | encodeStage
deriving DecidableEq, Repr

/-- The external world `main` runs against: whether the input path exists,
what decoding the input yields (an animated image, or a codec failure), and
whether the encoder's `save` call succeeds. -/
structure Env where
  inputExists : Bool
  decodeResult : Except GifError AnimImage
  encodeOk : Bool

/-- The observable outcome of one invocation: the process exit code, the
output file written (if any), the stages that were executed, and the
diagnostic messages printed for errors. -/
structure RunResult where
  exitCode : Nat
  written : Option OutputGif
  stages : List Stage
  errMessages : List String

/-- `main` (lines 74-100), after argument parsing: check the input path
exists (else `FileNotFoundError`), validate the dimensions, then run
`crop_gif` (decode, crop every frame, encode). Every raised error is caught
by the single top-level handler, printed as `Error: ...`, and mapped to
return value 1; success returns 0. No output file is written on any error
path: the encoder's `save` runs only after a non-empty cropped frame list,
and a failed `save` leaves no valid output. -/
def mainRun (env : Env) (left top right bottom : Int) : RunResult :=
  if env.inputExists = false then
    { exitCode := 1
      written := none
      stages := [Stage.checkPath]
      errMessages := ["Error: Input file not found"] }
  else
    match validate_dimensions left top right bottom with
    | Except.error (GifError.invalidDimensions msg) =>
        { exitCode := 1
          written := none
          stages := [Stage.checkPath, Stage.validateDims]
          errMessages := ["Error: " ++ msg] }
    | Except.error _ =>
        { exitCode := 1
          written := none
          stages := [Stage.checkPath, Stage.validateDims]
          errMessages := ["Error: invalid dimensions"] }
    | Except.ok _ =>
        match env.decodeResult with
        | Except.error _ =>
            { exitCode := 1
              written := none
              stages := [Stage.checkPath, Stage.validateDims,
                Stage.decodeStage]
              errMessages := ["Error processing GIF: cannot identify image",
                "Error: cannot identify image"] }
        | Except.ok img =>
            match crop_gif img left top right bottom with
            | Except.error _ =>
                { exitCode := 1
                  written := none
                  stages := [Stage.checkPath, Stage.validateDims,
                    Stage.decodeStage, Stage.cropStage]
                  errMessages :=
                    ["Error processing GIF: No frames were extracted from the GIF",
                     "Error: No frames were extracted from the GIF"] }
            | Except.ok out =>
                if env.encodeOk then
                  { exitCode := 0
                    written := some out
                    stages := [Stage.checkPath, Stage.validateDims,
                      Stage.decodeStage, Stage.cropStage, Stage.encodeStage]
                    errMessages := [] }
                else
                  { exitCode := 1
                    written := none
                    stages := [Stage.checkPath, Stage.validateDims,
                      Stage.decodeStage, Stage.cropStage, Stage.encodeStage]
                    errMessages := ["Error processing GIF: save failed",
                      "Error: save failed"] }

/-! ## Concrete fixtures used by witnesses and counterexamples -/

/-- A concrete 10 x 10 palette-mode frame with distinct pixel values. -/
def sampleFrameP : Frame :=
  { width := 10, height := 10, mode := ColorMode.P
    pix := fun x y => x + 10 * y }

/-- A concrete 4 x 4 RGB-mode frame (a mode that `crop_gif` converts). -/
def sampleFrameRGB : Frame :=
  { width := 4, height := 4, mode := ColorMode.RGB
    pix := fun x y => 100 + x + 4 * y }

/-- A concrete one-frame animated image with explicit metadata. -/
def sampleImg : AnimImage :=
  { frames := [sampleFrameP], duration := some 200, loop := some 0 }

/-- A concrete animated image whose decode produced zero frames. -/
def emptyImg : AnimImage :=
  { frames := [], duration := none, loop := none }

/-- A concrete environment whose input path does not exist. -/
def envMissing : Env :=
  { inputExists := false, decodeResult := Except.ok sampleImg
    encodeOk := true }

/-! ## Helper lemmas shared by the claim theorems -/

theorem processFrame_width (f : Frame) (l t r b : Int) :
    (processFrame l t r b f).width = (r - l).toNat := by
  simp only [processFrame]
  split <;> rfl

theorem processFrame_height (f : Frame) (l t r b : Int) :
    (processFrame l t r b f).height = (b - t).toNat := by
  simp only [processFrame]
  split <;> rfl

theorem processFrame_pix (f : Frame) (l t r b : Int) (x y : Nat) :
    (processFrame l t r b f).pix x y =
      f.getPix (l + (x : Int)) (t + (y : Int)) := by
  simp only [processFrame]
  split <;> rfl

theorem validate_dimensions_ok_iff (l t r b : Int) :
    validate_dimensions l t r b = Except.ok () ↔
      (0 ≤ l ∧ l < r ∧ 0 ≤ t ∧ t < b) := by
  unfold validate_dimensions
  split_ifs <;> simp <;> omega

theorem validate_dimensions_cases (l t r b : Int) :
    validate_dimensions l t r b = Except.ok () ∨
      ∃ msg, validate_dimensions l t r b =
        Except.error (GifError.invalidDimensions msg) := by
  unfold validate_dimensions
  split_ifs <;> simp

theorem crop_gif_ok_of_ne_nil (img : AnimImage) (l t r b : Int)
    (h : img.frames ≠ []) :
    crop_gif img l t r b = Except.ok
      { frames := img.frames.map (processFrame l t r b)
        duration := img.duration.getD 100
        loop := img.loop.getD 0 } := by
  unfold crop_gif
  rw [if_neg]
  simp only [List.isEmpty_eq_true, List.map_eq_nil_iff]
  exact h

theorem crop_gif_err_of_nil (img : AnimImage) (l t r b : Int)
    (h : img.frames = []) :
    crop_gif img l t r b = Except.error GifError.emptySequence := by
  unfold crop_gif
  rw [if_pos]
  simp [h]

theorem mainRun_not_exists_eq (env : Env) (l t r b : Int)
    (hex : env.inputExists = false) :
    mainRun env l t r b =
      { exitCode := 1, written := none, stages := [Stage.checkPath]
        errMessages := ["Error: Input file not found"] } := by
  unfold mainRun
  rw [if_pos hex]

theorem mainRun_validate_error (env : Env) (l t r b : Int) (e : GifError)
    (hex : env.inputExists = true)
    (hval : validate_dimensions l t r b = Except.error e) :
    (mainRun env l t r b).exitCode = 1 ∧
    (mainRun env l t r b).written = none ∧
    (mainRun env l t r b).errMessages ≠ [] ∧
    (mainRun env l t r b).stages = [Stage.checkPath, Stage.validateDims] := by
  unfold mainRun
  rw [if_neg (by simp [hex]), hval]
  cases e <;> exact ⟨rfl, rfl, by simp, rfl⟩

theorem mainRun_decode_error (env : Env) (l t r b : Int) (e : GifError)
    (hex : env.inputExists = true)
    (hval : validate_dimensions l t r b = Except.ok ())
    (hdec : env.decodeResult = Except.error e) :
    mainRun env l t r b =
      { exitCode := 1, written := none
        stages := [Stage.checkPath, Stage.validateDims, Stage.decodeStage]
        errMessages := ["Error processing GIF: cannot identify image",
          "Error: cannot identify image"] } := by
  unfold mainRun
  rw [if_neg (by simp [hex]), hval, hdec]

theorem mainRun_crop_error (env : Env) (l t r b : Int) (img : AnimImage)
    (e : GifError) (hex : env.inputExists = true)
    (hval : validate_dimensions l t r b = Except.ok ())
    (hdec : env.decodeResult = Except.ok img)
    (hcrop : crop_gif img l t r b = Except.error e) :
    mainRun env l t r b =
      { exitCode := 1, written := none
        stages := [Stage.checkPath, Stage.validateDims, Stage.decodeStage,
          Stage.cropStage]
        errMessages :=
          ["Error processing GIF: No frames were extracted from the GIF",
           "Error: No frames were extracted from the GIF"] } := by
  unfold mainRun
  rw [if_neg (by simp [hex]), hval, hdec]
  dsimp only
  rw [hcrop]

theorem mainRun_ok (env : Env) (l t r b : Int) (img : AnimImage)
    (out : OutputGif) (hex : env.inputExists = true)
    (hval : validate_dimensions l t r b = Except.ok ())
    (hdec : env.decodeResult = Except.ok img)
    (hcrop : crop_gif img l t r b = Except.ok out)
    (henc : env.encodeOk = true) :
    mainRun env l t r b =
      { exitCode := 0, written := some out
        stages := [Stage.checkPath, Stage.validateDims, Stage.decodeStage,
          Stage.cropStage, Stage.encodeStage]
        errMessages := [] } := by
  unfold mainRun
  rw [if_neg (by simp [hex]), hval, hdec]
  dsimp only
  rw [hcrop]
  dsimp only
  rw [if_pos henc]

theorem mainRun_encode_fail (env : Env) (l t r b : Int) (img : AnimImage)
    (out : OutputGif) (hex : env.inputExists = true)
    (hval : validate_dimensions l t r b = Except.ok ())
    (hdec : env.decodeResult = Except.ok img)
    (hcrop : crop_gif img l t r b = Except.ok out)
    (henc : env.encodeOk = false) :
    mainRun env l t r b =
      { exitCode := 1, written := none
        stages := [Stage.checkPath, Stage.validateDims, Stage.decodeStage,
          Stage.cropStage, Stage.encodeStage]
        errMessages := ["Error processing GIF: save failed",
          "Error: save failed"] } := by
  unfold mainRun
  rw [if_neg (by simp [hex]), hval, hdec]
  dsimp only
  rw [hcrop]
  dsimp only
  rw [if_neg (by simp [henc])]

/-! ## Claim theorems -/

/-- C3: `validate_dimensions` returns successfully for exactly those integer
quadruples with `0 ≤ left < right` and `0 ≤ top < bottom`, and on every
other quadruple it fails with an `InvalidDimensions` error (`ValueError`).
It is a pure function of the four integers (its Lean type,
`Int → Int → Int → Int → Except GifError Unit`, takes no frame and touches
no state), so it performs no side effects and no frame-bounds comparison. -/
theorem validate_dimensions_spec (left top right bottom : Int) :
    (validate_dimensions left top right bottom = Except.ok () ↔
      (0 ≤ left ∧ left < right ∧ 0 ≤ top ∧ top < bottom)) ∧
    (validate_dimensions left top right bottom = Except.ok () ∨
      ∃ msg, validate_dimensions left top right bottom =
        Except.error (GifError.invalidDimensions msg)) := by
  unfold validate_dimensions
  split_ifs with h1 h2 h3 <;> simp <;> omega

/-- C1: for every frame and every crop rectangle satisfying the data-model
invariants (`0 ≤ left < right ≤ width`, `0 ≤ top < bottom ≤ height`), the
frame cropper produces a raster of dimensions
`(right-left) x (bottom-top)` whose pixel `(x, y)` is exactly the source
pixel `(left+x, top+y)` — the source pixels with x in `[left, right)` and
y in `[top, bottom)` in the same relative order — and if the cropped
raster's mode is neither `RGBA` nor `P`, the appended frame has been
converted to `RGBA`. -/
theorem processFrame_crop_spec (f : Frame) (left top right bottom : Int)
    (hl : 0 ≤ left) (hlr : left < right) (hr : right ≤ (f.width : Int))
    (ht : 0 ≤ top) (htb : top < bottom) (hb : bottom ≤ (f.height : Int)) :
    ((processFrame left top right bottom f).width : Int) = right - left ∧
    ((processFrame left top right bottom f).height : Int) = bottom - top ∧
    (∀ x y : Nat, (x : Int) < right - left → (y : Int) < bottom - top →
      (processFrame left top right bottom f).pix x y =
        f.pix (left.toNat + x) (top.toNat + y)) ∧
    (((pilCrop f left top right bottom).mode ≠ ColorMode.RGBA ∧
        (pilCrop f left top right bottom).mode ≠ ColorMode.P) →
      (processFrame left top right bottom f).mode = ColorMode.RGBA) := by
  refine ⟨?_, ?_, ?_, ?_⟩
  · rw [processFrame_width]
    omega
  · rw [processFrame_height]
    omega
  · intro x y hx hy
    rw [processFrame_pix, Frame.getPix, if_pos (by omega)]
    congr 1 <;> omega
  · intro ⟨hm1, hm2⟩
    simp only [processFrame]
    rw [if_neg]
    · rfl
    · rintro (h | h) <;> [exact hm1 h; exact hm2 h]

/-- Witness for C1: the crop (1, 1, 3, 3) on the concrete 4 x 4 RGB frame;
all hypotheses hold and the crop contract follows from the theorem. -/
theorem processFrame_crop_spec_witness :
    ((0 : Int) ≤ 1 ∧ (1 : Int) < 3 ∧ (3 : Int) ≤ (sampleFrameRGB.width : Int)) ∧
    (((processFrame 1 1 3 3 sampleFrameRGB).width : Int) = 3 - 1 ∧
      ((processFrame 1 1 3 3 sampleFrameRGB).height : Int) = 3 - 1 ∧
      (∀ x y : Nat, (x : Int) < 3 - 1 → (y : Int) < 3 - 1 →
        (processFrame 1 1 3 3 sampleFrameRGB).pix x y =
          sampleFrameRGB.pix ((1 : Int).toNat + x) ((1 : Int).toNat + y)) ∧
      (((pilCrop sampleFrameRGB 1 1 3 3).mode ≠ ColorMode.RGBA ∧
          (pilCrop sampleFrameRGB 1 1 3 3).mode ≠ ColorMode.P) →
        (processFrame 1 1 3 3 sampleFrameRGB).mode = ColorMode.RGBA)) :=
  ⟨by decide,
   processFrame_crop_spec sampleFrameRGB 1 1 3 3 (by decide) (by decide)
     (by decide) (by decide) (by decide) (by decide)⟩

/-- C10: when the cropped raster's mode is already `RGBA` or `P`, no
conversion happens: the frame appended to the output sequence is exactly
the raster produced by the crop, mode included. -/
theorem processFrame_no_conversion (f : Frame) (l t r b : Int)
    (h : (pilCrop f l t r b).mode = ColorMode.RGBA ∨
      (pilCrop f l t r b).mode = ColorMode.P) :
    processFrame l t r b f = pilCrop f l t r b := by
  simp only [processFrame]
  rw [if_pos h]

/-- Witness for C10: cropping the concrete palette-mode frame keeps it
untouched by the conversion step. -/
theorem processFrame_no_conversion_witness :
    ((pilCrop sampleFrameP 2 2 8 8).mode = ColorMode.RGBA ∨
      (pilCrop sampleFrameP 2 2 8 8).mode = ColorMode.P) ∧
    processFrame 2 2 8 8 sampleFrameP = pilCrop sampleFrameP 2 2 8 8 :=
  ⟨Or.inr rfl, processFrame_no_conversion sampleFrameP 2 2 8 8 (Or.inr rfl)⟩

/-- C2: for every animated input with `F ≥ 1` frames and a valid crop
rectangle, `crop_gif` succeeds and its output has exactly `F` frames, each
of size `(right-left) x (bottom-top)`, in the same playback order
(the output frame list is the pointwise image of the input frame list). -/
theorem crop_gif_frame_count (img : AnimImage) (l t r b : Int) (F : Nat)
    (hF : img.frames.length = F) (h1 : 1 ≤ F) (hlr : l < r) (htb : t < b) :
    ∃ out, crop_gif img l t r b = Except.ok out ∧
      out.frames = img.frames.map (processFrame l t r b) ∧
      out.frames.length = F ∧
      ∀ f ∈ out.frames, (f.width : Int) = r - l ∧ (f.height : Int) = b - t := by
  have hne : img.frames ≠ [] := by
    intro h
    rw [h] at hF
    simp at hF
    omega
  refine ⟨_, crop_gif_ok_of_ne_nil img l t r b hne, rfl, by simp [hF], ?_⟩
  intro f hf
  simp only [List.mem_map] at hf
  obtain ⟨g, _, rfl⟩ := hf
  rw [processFrame_width, processFrame_height]
  constructor <;> omega

/-- Witness for C2: the concrete one-frame image with crop box
(2, 2, 8, 8) yields one 6 x 6 frame. -/
theorem crop_gif_frame_count_witness :
    (sampleImg.frames.length = 1 ∧ (2 : Int) < 8) ∧
    (∃ out, crop_gif sampleImg 2 2 8 8 = Except.ok out ∧
      out.frames = sampleImg.frames.map (processFrame 2 2 8 8) ∧
      out.frames.length = 1 ∧
      ∀ f ∈ out.frames, (f.width : Int) = 8 - 2 ∧ (f.height : Int) = 8 - 2) :=
  ⟨⟨rfl, by decide⟩,
   crop_gif_frame_count sampleImg 2 2 8 8 1 rfl (by decide) (by decide)
     (by decide)⟩

/-- C4: whenever `crop_gif` produces an output file, the output's loop
count is the input's loop count (`info.get('loop', 0)`: default 0,
infinite, when absent) and the output's per-frame display time is the
input's single scalar duration (`info.get('duration', 100)`: default 100
milliseconds when absent). `OutputGif` carries one scalar `duration` for
all frames, mirroring the single `duration=` argument of `save`, so the
time is uniform across frames by construction. -/
theorem crop_gif_metadata (img : AnimImage) (l t r b : Int)
    (out : OutputGif) (h : crop_gif img l t r b = Except.ok out) :
    out.duration = img.duration.getD 100 ∧ out.loop = img.loop.getD 0 := by
  simp only [crop_gif] at h
  split at h
  · exact Except.noConfusion h
  · cases h
    exact ⟨rfl, rfl⟩

/-- Witness for C4: the concrete image with duration 200 and loop 0 keeps
both through `crop_gif`. -/
theorem crop_gif_metadata_witness :
    crop_gif sampleImg 2 2 8 8 = Except.ok
      { frames := sampleImg.frames.map (processFrame 2 2 8 8)
        duration := 200, loop := 0 } ∧
    (200 : Nat) = sampleImg.duration.getD 100 ∧
    (0 : Nat) = sampleImg.loop.getD 0 :=
  ⟨rfl, crop_gif_metadata sampleImg 2 2 8 8 _ rfl⟩

/-- C5: for every animated input whose frames all have size `W x H`,
running the pipeline with the full-frame box (0, 0, W, H) is an identity on
pixel content: dimension validation passes, `crop_gif` succeeds, the frame
count is unchanged, and every output frame's pixels equal the corresponding
input frame's pixels. -/
theorem crop_gif_full_frame_identity (img : AnimImage) (W H : Nat)
    (hW : 0 < W) (hH : 0 < H)
    (hdims : ∀ f ∈ img.frames, f.width = W ∧ f.height = H)
    (hne : img.frames ≠ []) :
    validate_dimensions 0 0 (W : Int) (H : Int) = Except.ok () ∧
    ∃ out, crop_gif img 0 0 (W : Int) (H : Int) = Except.ok out ∧
      out.frames.length = img.frames.length ∧
      ∀ (i : Nat) (hi : i < out.frames.length)
        (hi2 : i < img.frames.length), ∀ x y : Nat, x < W → y < H →
          (out.frames.get ⟨i, hi⟩).pix x y =
            (img.frames.get ⟨i, hi2⟩).pix x y := by
  constructor
  · unfold validate_dimensions
    split_ifs with h1 h2 h3
    · exact absurd h1 (by omega)
    · exact absurd h2 (by omega)
    · exact absurd h3 (by omega)
    · rfl
  refine ⟨_, crop_gif_ok_of_ne_nil img 0 0 W H hne, by simp, ?_⟩
  intro i hi hi2 x y hx hy
  have hmem : img.frames.get ⟨i, hi2⟩ ∈ img.frames := List.get_mem _ _ _
  obtain ⟨hw, hh⟩ := hdims _ hmem
  have hmap : (List.map (processFrame 0 0 (W : Int) (H : Int))
      img.frames).get ⟨i, hi⟩ =
      processFrame 0 0 (W : Int) (H : Int) (img.frames.get ⟨i, hi2⟩) := by
    simp [List.get_eq_getElem, List.getElem_map]
  rw [hmap, processFrame_pix, Frame.getPix, if_pos (by omega)]
  congr 1 <;> omega

/-- Witness for C5: the concrete one-frame 10 x 10 image cropped with the
full-frame box (0, 0, 10, 10). -/
theorem crop_gif_full_frame_identity_witness :
    (∀ f ∈ sampleImg.frames, f.width = 10 ∧ f.height = 10) ∧
    (validate_dimensions 0 0 (10 : Int) (10 : Int) = Except.ok () ∧
      ∃ out, crop_gif sampleImg 0 0 (10 : Int) (10 : Int) = Except.ok out ∧
        out.frames.length = sampleImg.frames.length ∧
        ∀ (i : Nat) (hi : i < out.frames.length)
          (hi2 : i < sampleImg.frames.length), ∀ x y : Nat, x < 10 → y < 10 →
            (out.frames.get ⟨i, hi⟩).pix x y =
              (sampleImg.frames.get ⟨i, hi2⟩).pix x y) :=
  ⟨by decide,
   crop_gif_full_frame_identity sampleImg 10 10 (by decide) (by decide)
     (by decide) (List.cons_ne_nil _ _)⟩

/-- Counterexample to C6: with the concrete 10 x 10 single-frame image and
the out-of-bounds box (0, 0, 20, 20), the crop step does not fail at all:
`crop_gif` succeeds and produces a 20 x 20 frame. No `CropOutOfBounds`
failure exists anywhere in the code. -/
theorem crop_out_of_bounds_counterexample :
    ∃ out, crop_gif sampleImg 0 0 20 20 = Except.ok out ∧
      out.frames.length = 1 ∧
      ∀ f ∈ out.frames, f.width = 20 ∧ f.height = 20 := by
  refine ⟨_, rfl, rfl, ?_⟩
  decide

/-- C6 amended: for every validated crop rectangle, contained in the source
frame or not, the crop step does not fail: it returns, for each input
frame, a raster of dimensions `(right-left) x (bottom-top)` in which
positions mapping outside the source frame hold the library's fill value 0
(zero-padding), and the pipeline proceeds to a successful output. -/
theorem crop_out_of_bounds_pads (img : AnimImage) (l t r b : Int)
    (hne : img.frames ≠ []) (hlr : l < r) (htb : t < b) :
    (∃ out, crop_gif img l t r b = Except.ok out ∧
      out.frames = img.frames.map (processFrame l t r b)) ∧
    ∀ f : Frame, (processFrame l t r b f).width = (r - l).toNat ∧
      (processFrame l t r b f).height = (b - t).toNat ∧
      ∀ x y : Nat,
        ((f.width : Int) ≤ l + (x : Int) ∨ (f.height : Int) ≤ t + (y : Int) ∨
          l + (x : Int) < 0 ∨ t + (y : Int) < 0) →
        (processFrame l t r b f).pix x y = 0 := by
  refine ⟨⟨_, crop_gif_ok_of_ne_nil img l t r b hne, rfl⟩, ?_⟩
  intro f
  refine ⟨processFrame_width f l t r b, processFrame_height f l t r b, ?_⟩
  intro x y hxy
  rw [processFrame_pix, Frame.getPix, if_neg (by omega)]

/-- Witness for the amended C6: the 10 x 10 frame with box (0, 0, 20, 20);
in particular position (15, 15) of the result is the fill value 0. -/
theorem crop_out_of_bounds_pads_witness :
    (sampleImg.frames ≠ [] ∧ (0 : Int) < 20) ∧
    ((∃ out, crop_gif sampleImg 0 0 20 20 = Except.ok out ∧
        out.frames = sampleImg.frames.map (processFrame 0 0 20 20)) ∧
      ∀ f : Frame, (processFrame 0 0 20 20 f).width = (20 - 0 : Int).toNat ∧
        (processFrame 0 0 20 20 f).height = (20 - 0 : Int).toNat ∧
        ∀ x y : Nat,
          ((f.width : Int) ≤ 0 + (x : Int) ∨
            (f.height : Int) ≤ 0 + (y : Int) ∨
            0 + (x : Int) < 0 ∨ 0 + (y : Int) < 0) →
          (processFrame 0 0 20 20 f).pix x y = 0) :=
  ⟨⟨List.cons_ne_nil _ _, by decide⟩,
   crop_out_of_bounds_pads sampleImg 0 0 20 20 (List.cons_ne_nil _ _)
     (by decide) (by decide)⟩

/-- C7: when decoding produced zero frames, `crop_gif` raises the
`EmptySequence` error (`ValueError("No frames were extracted from the
GIF")`) instead of encoding, and in every environment delivering such an
input the run writes no output file and never reaches the encode stage. -/
theorem crop_gif_empty_sequence (img : AnimImage) (l t r b : Int)
    (h : img.frames = []) :
    crop_gif img l t r b = Except.error GifError.emptySequence ∧
    ∀ env : Env, env.decodeResult = Except.ok img →
      (mainRun env l t r b).written = none ∧
      Stage.encodeStage ∉ (mainRun env l t r b).stages := by
  refine ⟨crop_gif_err_of_nil img l t r b h, ?_⟩
  intro env hdec
  rcases hex : env.inputExists with _ | _
  · rw [mainRun_not_exists_eq env l t r b hex]
    exact ⟨rfl, by decide⟩
  · rcases validate_dimensions_cases l t r b with hval | ⟨msg, hval⟩
    · rw [mainRun_crop_error env l t r b img GifError.emptySequence hex hval
        hdec (crop_gif_err_of_nil img l t r b h)]
      exact ⟨rfl, by decide⟩
    · obtain ⟨_, hw, _, hs⟩ :=
        mainRun_validate_error env l t r b _ hex hval
      rw [hw, hs]
      exact ⟨rfl, by decide⟩

/-- Witness for C7: the concrete zero-frame image. -/
theorem crop_gif_empty_sequence_witness :
    emptyImg.frames = [] ∧
    (crop_gif emptyImg 0 0 5 5 = Except.error GifError.emptySequence ∧
      ∀ env : Env, env.decodeResult = Except.ok emptyImg →
        (mainRun env 0 0 5 5).written = none ∧
        Stage.encodeStage ∉ (mainRun env 0 0 5 5).stages) :=
  ⟨rfl, crop_gif_empty_sequence emptyImg 0 0 5 5 rfl⟩

/-- C8: when the input path does not exist, the run stops at the path
check — the decode stage is never executed — exits with code 1, prints the
`FileNotFoundError` message, and writes no output file. -/
theorem mainRun_file_not_found (env : Env) (l t r b : Int)
    (h : env.inputExists = false) :
    (mainRun env l t r b).exitCode = 1 ∧
    (mainRun env l t r b).written = none ∧
    Stage.decodeStage ∉ (mainRun env l t r b).stages ∧
    (mainRun env l t r b).stages = [Stage.checkPath] ∧
    (mainRun env l t r b).errMessages = ["Error: Input file not found"] := by
  rw [mainRun_not_exists_eq env l t r b h]
  exact ⟨rfl, rfl, by decide, rfl, rfl⟩

/-- Witness for C8: a concrete environment with a missing input path. -/
theorem mainRun_file_not_found_witness :
    envMissing.inputExists = false ∧
    ((mainRun envMissing 0 0 5 5).exitCode = 1 ∧
      (mainRun envMissing 0 0 5 5).written = none ∧
      Stage.decodeStage ∉ (mainRun envMissing 0 0 5 5).stages ∧
      (mainRun envMissing 0 0 5 5).stages = [Stage.checkPath] ∧
      (mainRun envMissing 0 0 5 5).errMessages =
        ["Error: Input file not found"]) :=
  ⟨rfl, mainRun_file_not_found envMissing 0 0 5 5 rfl⟩

/-- C9: the orchestration exits with code 0 exactly when every stage
succeeds (path exists, dimensions validate, decode succeeds, the crop and
encode of `crop_gif` succeed, and the save completes); every other outcome
exits with code 1 after printing at least one human-readable error
message, and a code-0 run prints no error and has written the output. -/
theorem mainRun_exit_code (env : Env) (l t r b : Int) :
    ((mainRun env l t r b).exitCode = 0 ↔
      (env.inputExists = true ∧
        validate_dimensions l t r b = Except.ok () ∧
        ∃ img out, env.decodeResult = Except.ok img ∧
          crop_gif img l t r b = Except.ok out ∧ env.encodeOk = true)) ∧
    ((mainRun env l t r b).exitCode = 0 ∨
      (mainRun env l t r b).exitCode = 1) ∧
    ((mainRun env l t r b).exitCode = 1 →
      (mainRun env l t r b).errMessages ≠ []) ∧
    ((mainRun env l t r b).exitCode = 0 →
      (mainRun env l t r b).errMessages = [] ∧
      ∃ out, (mainRun env l t r b).written = some out) := by
  rcases hex : env.inputExists with _ | _
  · rw [mainRun_not_exists_eq env l t r b hex]
    simp [hex]
  · rcases validate_dimensions_cases l t r b with hval | ⟨msg, hval⟩
    · rcases hdec : env.decodeResult with e | img
      · rw [mainRun_decode_error env l t r b e hex hval hdec]
        simp [hdec]
      · rcases hcrop : crop_gif img l t r b with e | out
        · rw [mainRun_crop_error env l t r b img e hex hval hdec hcrop]
          simp [hdec, hcrop]
        · rcases henc : env.encodeOk with _ | _
          · rw [mainRun_encode_fail env l t r b img out hex hval hdec hcrop
              henc]
            simp [henc]
          · rw [mainRun_ok env l t r b img out hex hval hdec hcrop henc]
            simp [hex, hval, hdec, hcrop, henc]
    · obtain ⟨he, _, hm, _⟩ := mainRun_validate_error env l t r b _ hex hval
      rw [he]
      simp [hval, hm]

end Gifcrop
